import Mathlib

/-!
Shallow embedding of a property-listing backend (users, properties,
favorites, peer-to-peer recommendations backed by a document store and a
redis cache), together with theorems settling the behavioural claims of
its specification.  Each definition is translated from the concrete
handler or model code it cites; state is passed explicitly, times are
millisecond integers, and fallible paths return explicit outcome values.
-/

namespace PropListing

/-! ## Cache layer, from src/config/redis.ts -/

/-- Outcome of the underlying redis GET for one key: a hit carrying the
stored value, a clean miss, or a connection/serialization failure. -/
inductive CacheGetOutcome where
  | hit (value : String)
  | miss
  | failure
deriving DecidableEq

/-- Outcome of the underlying redis SET for one key. -/
inductive CacheSetOutcome where
  | ok
  | failure
deriving DecidableEq

/-- RedisClient.getObject (redis.ts lines 141-149): the catch block logs
and returns null, so a failed GET is indistinguishable from a miss. -/
def redisGetObject : CacheGetOutcome → Option String
  | .hit v => some v
  | .miss => none
  | .failure => none

/-- A minimal HTTP response: status code and body. -/
structure HttpResponse where
  status : Nat
  body : String
deriving DecidableEq

/-- PropertyController.getProperties (propertyController.ts lines 41-258),
abstracted over the cache outcomes and the store round-trip result.
The handler first probes the cache through getObject, whose failures
degrade to a miss.  On a miss it queries the store, builds the result,
and then runs `await redisClient.set cacheKey result ttl` (line 247).
RedisClient.set (redis.ts lines 117-130) rethrows its caught error, and
the handler awaits it inside the surrounding try block before
`res.status 200` is sent (line 249); a SET failure therefore lands in
the catch block (lines 251-258), which replies 500 INTERNAL_SERVER_ERROR. -/
def getPropertiesResponse (cacheGet : CacheGetOutcome) (cacheSet : CacheSetOutcome)
    (storeResult : String) : HttpResponse :=
  match redisGetObject cacheGet with
  | some cached => { status := 200, body := cached }
  | none =>
    match cacheSet with
    | .ok => { status := 200, body := storeResult }
    | .failure => { status := 500, body := "INTERNAL_SERVER_ERROR" }

/-! ## Pagination, from propertyController.ts lines 70-73 and 215-234 -/

/-- Source line 71: pageNum = Math.max 1 (parseInt page). -/
def pageNum (page : Int) : Int := max 1 page

/-- Source line 72: limitNum = Math.min (parseInt limit) config.MAX_PAGE_SIZE. -/
def limitNum (limit maxPageSize : Int) : Int := min limit maxPageSize

/-- Source line 73: skip = (pageNum - 1) * limitNum. -/
def skipCount (page limit maxPageSize : Int) : Int :=
  (pageNum page - 1) * limitNum limit maxPageSize

/-- Source line 216: totalPages = Math.ceil (totalCount / limitNum),
written for natural inputs with a positive limit. -/
def totalPages (totalCount limit : Nat) : Nat := (totalCount + limit - 1) / limit

/-- Source line 217: hasNextPage = pageNum < totalPages. -/
def hasNextPage (page : Int) (totalCount limit : Nat) : Bool :=
  decide (pageNum page < (totalPages totalCount limit : Int))

/-- Rows returned by Property.find(filter).skip(skip).limit(limitNum)
(source lines 203-211) over an abstract row store. -/
def pagedRows (rows : List Nat) (page limit maxPageSize : Int) : List Nat :=
  (rows.drop (skipCount page limit maxPageSize).toNat).take
    (limitNum limit maxPageSize).toNat

/-! ## Sort builder, from propertyController.ts lines 167-185 -/

/-- Value stored under one key of the mongo sort object: 1, -1, or the
textScore meta marker. -/
inductive SortVal where
  | asc
  | desc
  | textScore
deriving DecidableEq

/-- Direction selector used by every branch of the sort builder:
sortOrder === asc yields 1, anything else yields -1. -/
def sortDir (sortOrder : String) : SortVal :=
  if sortOrder = "asc" then .asc else .desc

/-- Destructuring default of source line 46: sortBy = createdAt applies
only when the query parameter is absent. -/
def effectiveSortBy (sortByParam : Option String) : String :=
  sortByParam.getD "createdAt"

/-- The sort object built at source lines 167-185: an optional textScore
entry when a search term is present, then a branch on the three
recognized fields, with every other supplied field name passed straight
through as the sort key. -/
def buildSortOptions (hasSearch : Bool) (sortBy sortOrder : String) :
    List (String × SortVal) :=
  (if hasSearch then [("score", SortVal.textScore)] else []) ++
  (if sortBy = "price" then [("price", sortDir sortOrder)]
   else if sortBy = "rating" then
     [("rating", sortDir sortOrder), ("reviewCount", SortVal.desc)]
   else if sortBy = "area" then [("specifications.areaSqFt", sortDir sortOrder)]
   else [(sortBy, sortDir sortOrder)])

/-! ## Favorites, from models/Favorite.ts and the favorite controller -/

/-- A stored Favorite row: the join of one user and one property. -/
structure FavRow where
  userId : Nat
  propertyId : Nat
deriving DecidableEq

/-- A property row reduced to its identity and soft-delete flag. -/
structure PropRow where
  id : Nat
  isActive : Bool
deriving DecidableEq

/-- Outcome of FavoriteController.addToFavorites: 201 created,
409 ALREADY_FAVORITED, or 404 PROPERTY_NOT_FOUND. -/
inductive AddFavoriteOutcome where
  | created
  | alreadyFavorited
  | propertyNotFound
deriving DecidableEq

/-- FavoriteController.addToFavorites core (favorite controller lines
205-267): look up the property and require it active, return 409 with no
write when a Favorite for the pair already exists, otherwise persist
exactly one new row and return 201. -/
def addToFavorites (props : List PropRow) (favs : List FavRow) (u p : Nat) :
    AddFavoriteOutcome × List FavRow :=
  match props.find? (fun q => q.id == p) with
  | none => (.propertyNotFound, favs)
  | some q =>
    if !q.isActive then (.propertyNotFound, favs)
    else
      match favs.find? (fun r => r.userId == u && r.propertyId == p) with
      | some _ => (.alreadyFavorited, favs)
      | none => (.created, favs ++ [{ userId := u, propertyId := p }])

/-- Number of stored Favorite rows for a given (user, property) pair. -/
def favCount (favs : List FavRow) (u p : Nat) : Nat :=
  (favs.filter (fun r => r.userId == u && r.propertyId == p)).length

/-- State carried by the favorite-count lifecycle: the Favorite rows plus
the owning user denormalized stats.favoriteCount. -/
structure FavCounterState where
  rows : List FavRow
  favoriteCount : Int
deriving DecidableEq

/-- Body of the FavoriteSchema post-save hook (Favorite model lines
144-156): it increments stats.favoriteCount only when doc.isNew is true. -/
def favPostSaveHook (docIsNew : Bool) (count : Int) : Int :=
  if docIsNew then count + 1 else count

/-- Mongoose semantics of document.save(): the document is persisted and
its isNew flag is reset to false before post-save middleware runs, so
the hook above always observes docIsNew = false. -/
def favSave (u p : Nat) (s : FavCounterState) : FavCounterState :=
  { rows := s.rows ++ [{ userId := u, propertyId := p }],
    favoriteCount := favPostSaveHook false s.favoriteCount }

/-- First matching Favorite row removed, as Favorite.findOneAndDelete
does on the store. -/
def removeFirstFav (favs : List FavRow) (u p : Nat) : List FavRow :=
  List.eraseP (fun r => r.userId == u && r.propertyId == p) favs

/-- FavoriteController.removeFromFavorites (favorite controller lines
313-326) calls Favorite.findOneAndDelete, which fires only
findOneAndDelete query middleware; the decrementing hook is registered
as document middleware for deleteOne with query false (Favorite model
lines 159-169), so it does not run and the counter is left untouched. -/
def favRemove (u p : Nat) (s : FavCounterState) : FavCounterState :=
  { rows := removeFirstFav s.rows u p, favoriteCount := s.favoriteCount }

/-- N consecutive favorite creations for one user, one per property id. -/
def iterateFavSaves (u : Nat) (pids : List Nat) (s : FavCounterState) :
    FavCounterState :=
  pids.foldl (fun acc p => favSave u p acc) s

/-! ## Recommendations, from models/Recommendation.ts and its controller -/

/-- Recommendation status enumeration (Recommendation.ts line 11). -/
inductive RecStatus where
  | pending
  | viewed
  | interested
  | notInterested
  | contacted
  | dismissed
deriving DecidableEq

/-- The interactions subdocument (Recommendation.ts lines 117-148). -/
structure RecInteractions where
  sentAt : Int
  viewedAt : Option Int
  respondedAt : Option Int
  contactedAt : Option Int
  dismissedAt : Option Int
  reminderSentAt : Option Int
  reminderCount : Nat
deriving DecidableEq

/-- A Recommendation document restricted to the fields the lifecycle
methods read or write. -/
structure RecDoc where
  senderId : Nat
  recipientId : Nat
  propertyId : Nat
  status : RecStatus
  interactions : RecInteractions
  isActive : Bool
  expiresAt : Option Int
  allowReminders : Bool
deriving DecidableEq

/-- Helper shared by the responding transitions: stamp viewedAt only when
it is still unset (the guarded assignment at Recommendation.ts lines
292-294, 302-304 and 313-315). -/
def stampViewedIfUnset (now : Int) (i : RecInteractions) : RecInteractions :=
  if i.viewedAt = none then { i with viewedAt := some now } else i

/-- markAsViewed (Recommendation.ts lines 280-286): a no-op when viewedAt
is already stamped. -/
def markAsViewed (now : Int) (r : RecDoc) : RecDoc :=
  if r.interactions.viewedAt = none then
    { r with status := .viewed,
             interactions := { r.interactions with viewedAt := some now } }
  else r

/-- markAsInterested (lines 289-296): status interested, respondedAt
stamped unconditionally, viewedAt stamped only if unset. -/
def markAsInterested (now : Int) (r : RecDoc) : RecDoc :=
  { r with status := .interested,
           interactions :=
             stampViewedIfUnset now { r.interactions with respondedAt := some now } }

/-- markAsNotInterested (lines 299-306). -/
def markAsNotInterested (now : Int) (r : RecDoc) : RecDoc :=
  { r with status := .notInterested,
           interactions :=
             stampViewedIfUnset now { r.interactions with respondedAt := some now } }

/-- markAsContacted (lines 309-317): contactedAt and respondedAt stamped
unconditionally, viewedAt only if unset. -/
def markAsContacted (now : Int) (r : RecDoc) : RecDoc :=
  { r with status := .contacted,
           interactions :=
             stampViewedIfUnset now
               { r.interactions with contactedAt := some now, respondedAt := some now } }

/-- markAsDismissed (lines 320-325): status dismissed, dismissedAt
stamped, isActive flipped off.  viewedAt is not touched. -/
def markAsDismissed (now : Int) (r : RecDoc) : RecDoc :=
  { r with status := .dismissed,
           isActive := false,
           interactions := { r.interactions with dismissedAt := some now } }

/-- The status values a recipient may request; pending is excluded by the
validStatuses list (recommendationController.ts line 542). -/
inductive StatusUpdateRequest where
  | viewed
  | interested
  | notInterested
  | contacted
  | dismissed
deriving DecidableEq

/-- Dispatch of RecommendationController.updateRecommendationStatus
(lines 570-586) onto the model methods. -/
def applyStatusUpdate (now : Int) (req : StatusUpdateRequest) (r : RecDoc) : RecDoc :=
  match req with
  | .viewed => markAsViewed now r
  | .interested => markAsInterested now r
  | .notInterested => markAsNotInterested now r
  | .contacted => markAsContacted now r
  | .dismissed => markAsDismissed now r

/-- RecommendationController.updateRecommendationStatus (lines 519-614):
findOne filters on isActive true (line 557), so an inactive document is
reported 404 RECOMMENDATION_NOT_FOUND and left untouched; otherwise the
requested transition method runs and 200 is returned. -/
def updateRecommendationStatus (now : Int) (req : StatusUpdateRequest) (r : RecDoc) :
    Nat × RecDoc :=
  if r.isActive then (200, applyStatusUpdate now req r) else (404, r)

/-- Rank of a status along the documented progression: pending, then
viewed, then the three responses, with dismissed terminal. -/
def statusRank : RecStatus → Nat
  | .pending => 0
  | .viewed => 1
  | .interested => 2
  | .notInterested => 2
  | .contacted => 2
  | .dismissed => 3

/-- States reachable through the controller: a responded status always
has viewedAt stamped (every responding method stamps it), and a
dismissed document is inactive (markAsDismissed flips the flag). -/
def RecWF (r : RecDoc) : Prop :=
  (statusRank r.status = 2 → r.interactions.viewedAt ≠ none) ∧
  (r.status = .dismissed → r.isActive = false)

/-- Duplicate filter used by sendRecommendation (controller lines
202-207): same sender, recipient and property with isActive true. -/
def activeTripleMatch (s rc p : Nat) (r : RecDoc) : Bool :=
  r.senderId == s && r.recipientId == rc && r.propertyId == p && r.isActive

/-- Outcome of RecommendationController.sendRecommendation restricted to
the duplicate logic: 201 created, 400 SELF_RECOMMENDATION, or 409
DUPLICATE_RECOMMENDATION. -/
inductive SendRecOutcome where
  | created
  | selfRecommendation
  | conflict
deriving DecidableEq

/-- A fresh Recommendation document as sendRecommendation constructs it,
with the schema defaults: status pending, empty interaction timestamps,
isActive true, the pre-save 30-day default expiry (Recommendation.ts
lines 253-257) and communication.allowReminders true (controller line
240). -/
def newRecDoc (sender recipient property : Nat) (now : Int) : RecDoc :=
  { senderId := sender, recipientId := recipient, propertyId := property,
    status := .pending,
    interactions := { sentAt := now, viewedAt := none, respondedAt := none,
                      contactedAt := none, dismissedAt := none,
                      reminderSentAt := none, reminderCount := 0 },
    isActive := true,
    expiresAt := some (now + 2592000000),
    allowReminders := true }

/-- RecommendationController.sendRecommendation (lines 114-280) reduced
to the conflict logic: reject sender equals recipient (line 171), report
409 when an active document for the triple exists (lines 201-219),
otherwise persist the new document and report 201. -/
def sendRecommendation (store : List RecDoc) (sender recipient property : Nat)
    (now : Int) : SendRecOutcome × List RecDoc :=
  if sender == recipient then (.selfRecommendation, store)
  else
    match store.find? (activeTripleMatch sender recipient property) with
    | some _ => (.conflict, store)
    | none => (.created, store ++ [newRecDoc sender recipient property now])

/-- The recipient dismissing every active recommendation of a triple:
markAsDismissed applied through the status-update path. -/
def dismissTriple (store : List RecDoc) (sender recipient property : Nat)
    (now : Int) : List RecDoc :=
  store.map (fun r =>
    if activeTripleMatch sender recipient property r then markAsDismissed now r else r)

/-! ## Reminders, from Recommendation.ts lines 327-373 and the controller -/

/-- Recommendation.isExpired (lines 349-351). -/
def recIsExpired (now : Int) (r : RecDoc) : Bool :=
  match r.expiresAt with
  | some e => decide (e < now)
  | none => false

/-- Three days in milliseconds, the reminder cooldown constant. -/
def threeDaysMs : Int := 259200000

/-- Recommendation.canSendReminder (lines 354-373): reminders allowed,
status still pending, not expired, fewer than 3 reminders sent, and no
reminder inside the last three days. -/
def canSendReminder (now : Int) (r : RecDoc) : Bool :=
  if !r.allowReminders || !(r.status == RecStatus.pending) || recIsExpired now r then
    false
  else if 3 ≤ r.interactions.reminderCount then false
  else
    match r.interactions.reminderSentAt with
    | some t => if now - threeDaysMs < t then false else true
    | none => true

/-- Recommendation.sendReminder (lines 328-346): returns false leaving
the document untouched when not eligible, otherwise stamps
reminderSentAt, increments reminderCount and returns true. -/
def sendReminder (now : Int) (r : RecDoc) : Bool × RecDoc :=
  if canSendReminder now r then
    (true, { r with interactions :=
               { r.interactions with
                 reminderSentAt := some now,
                 reminderCount := r.interactions.reminderCount + 1 } })
  else (false, r)

/-- RecommendationController.sendReminder response mapping (lines
868-886): an ineligible reminder is answered 400 REMINDER_NOT_ALLOWED,
an eligible one 200. -/
def sendReminderResponse (now : Int) (r : RecDoc) : Nat × String :=
  if (sendReminder now r).fst then (200, "Reminder sent successfully")
  else (400, "REMINDER_NOT_ALLOWED")

/-- The reminder-eligibility condition as the specification phrases it,
one conjunct per stated requirement; compared against canSendReminder. -/
def reminderEligibleSpec (now : Int) (r : RecDoc) : Bool :=
  r.allowReminders && r.status == RecStatus.pending && !recIsExpired now r &&
  decide (r.interactions.reminderCount < 3) &&
  (match r.interactions.reminderSentAt with
   | none => true
   | some t => decide (threeDaysMs ≤ now - t))

/-! ## User serialization, from the User model -/

/-- A JSON leaf value. -/
inductive JVal where
  | str (s : String)
  | num (n : Int)
  | boolean (b : Bool)
  | jnull
deriving DecidableEq

/-- Optional string field rendered into JSON. -/
def optStr : Option String → JVal
  | some s => .str s
  | none => .jnull

/-- Optional numeric field rendered into JSON. -/
def optNum : Option Int → JVal
  | some n => .num n
  | none => .jnull

/-- A User document restricted to the persisted fields, sensitive ones
included; nested stats counters carried flat. -/
structure UserDoc where
  email : String
  password : String
  firstName : String
  lastName : String
  phone : Option String
  avatar : Option String
  role : String
  isVerified : Bool
  isActive : Bool
  resetPasswordToken : Option String
  resetPasswordExpires : Option Int
  emailVerificationToken : Option String
  emailVerificationExpires : Option Int
  propertiesListed : Int
  favoriteCount : Int
  recommendationsSent : Int
  recommendationsReceived : Int
  version : Int
deriving DecidableEq

/-- this.toObject(): the persisted fields as a key-value object, nested
paths flattened to dotted keys, the version key written as __v. -/
def toObject (u : UserDoc) : List (String × JVal) :=
  [("email", JVal.str u.email),
   ("password", JVal.str u.password),
   ("firstName", JVal.str u.firstName),
   ("lastName", JVal.str u.lastName),
   ("phone", optStr u.phone),
   ("avatar", optStr u.avatar),
   ("role", JVal.str u.role),
   ("isVerified", JVal.boolean u.isVerified),
   ("isActive", JVal.boolean u.isActive),
   ("resetPasswordToken", optStr u.resetPasswordToken),
   ("resetPasswordExpires", optNum u.resetPasswordExpires),
   ("emailVerificationToken", optStr u.emailVerificationToken),
   ("emailVerificationExpires", optNum u.emailVerificationExpires),
   ("stats.propertiesListed", JVal.num u.propertiesListed),
   ("stats.favoriteCount", JVal.num u.favoriteCount),
   ("stats.recommendationsSent", JVal.num u.recommendationsSent),
   ("stats.recommendationsReceived", JVal.num u.recommendationsReceived),
   ("__v", JVal.num u.version)]

/-- JS delete of one key from an object. -/
def deleteKey (k : String) (l : List (String × JVal)) : List (String × JVal) :=
  l.filter (fun kv => kv.fst != k)

/-- UserSchema.methods.toJSON (User model lines 240-252): toObject with
password, resetPasswordToken, resetPasswordExpires,
emailVerificationToken, emailVerificationExpires and __v deleted. -/
def userToJSON (u : UserDoc) : List (String × JVal) :=
  deleteKey "__v"
    (deleteKey "emailVerificationExpires"
      (deleteKey "emailVerificationToken"
        (deleteKey "resetPasswordExpires"
          (deleteKey "resetPasswordToken"
            (deleteKey "password" (toObject u))))))

/-- The five sensitive field names the claim is about. -/
def sensitiveKeys : List String :=
  ["password", "resetPasswordToken", "resetPasswordExpires",
   "emailVerificationToken", "emailVerificationExpires"]

/-- A user with its sensitive fields blanked; two users agree on it
exactly when they differ only in sensitive fields. -/
def scrubSensitive (u : UserDoc) : UserDoc :=
  { u with password := "",
           resetPasswordToken := none,
           resetPasswordExpires := none,
           emailVerificationToken := none,
           emailVerificationExpires := none }

/-- Sample user for concrete instantiations. -/
def sampleUserA : UserDoc :=
  { email := "a@example.com", password := "hunter2", firstName := "Ada",
    lastName := "L", phone := none, avatar := none, role := "user",
    isVerified := true, isActive := true,
    resetPasswordToken := some "tokA", resetPasswordExpires := some 10,
    emailVerificationToken := none, emailVerificationExpires := none,
    propertiesListed := 0, favoriteCount := 0, recommendationsSent := 0,
    recommendationsReceived := 0, version := 0 }

/-- The same user with different sensitive fields only. -/
def sampleUserB : UserDoc :=
  { sampleUserA with password := "different", resetPasswordToken := none,
                     emailVerificationToken := some "tokB",
                     emailVerificationExpires := some 99 }

/-! ## Helper lemmas -/

/-- find? over an append whose first part has no match. -/
theorem find?_append_none {α : Type} (p : α → Bool) (l1 l2 : List α)
    (h : l1.find? p = none) : (l1 ++ l2).find? p = l2.find? p := by
  induction l1 with
  | nil => simp
  | cons a t ih =>
    cases hpa : p a with
    | true => simp [List.find?_cons, hpa] at h
    | false =>
      have ht : t.find? p = none := by simpa [List.find?_cons, hpa] using h
      simpa [List.find?_cons, hpa] using ih ht

/-! ## Theorems for the specification claims -/

/-- C1, counterexample: the claim that a cache-layer failure never fails
the calling read is false on the property-list path.  With a cache miss
followed by a failing cache set, the handler answers 500 instead of the
200 it answers when the set succeeds. -/
theorem cacheSetFailure_breaks_property_list_read :
    getPropertiesResponse .miss .failure "rows" ≠
      getPropertiesResponse .miss .ok "rows" ∧
    (getPropertiesResponse .miss .failure "rows").status = 500 ∧
    (getPropertiesResponse .miss .ok "rows").status = 200 :=
  ⟨by decide, rfl, rfl⟩

/-- C1, amended: a cache GET failure is absorbed and behaves exactly like
a miss (the read degrades to the store round-trip), and a cache hit is
served without touching the set path; but a failure of the cache SET
that runs after the store query turns the otherwise successful
property-list read into a 500 error response. -/
theorem cache_failure_handling_amended (cacheSet : CacheSetOutcome)
    (storeResult : String) :
    getPropertiesResponse .failure cacheSet storeResult =
      getPropertiesResponse .miss cacheSet storeResult ∧
    (getPropertiesResponse .miss .failure storeResult).status = 500 ∧
    (getPropertiesResponse (.hit storeResult) .failure storeResult).status = 200 :=
  ⟨rfl, rfl, rfl⟩

/-- C4: evaluating the favorite lifecycle at the failing input N = 1,
M = 0 (one creation, no deletion).  Because mongoose resets isNew before
post-save middleware runs, the increment of stats.favoriteCount is dead
code, and because findOneAndDelete does not fire the deleteOne document
middleware the decrement never runs either: the counter stays 0 where
the claim demands N - M = 1, and deletion leaves it 0 as well. -/
theorem favoriteCount_hooks_never_fire :
    (favSave 1 101 { rows := [], favoriteCount := 0 }).favoriteCount = 0 ∧
    (favSave 1 101 { rows := [], favoriteCount := 0 }).rows.length = 1 ∧
    (favRemove 1 101 (favSave 1 101 { rows := [], favoriteCount := 0 })).favoriteCount = 0 ∧
    (favRemove 1 101 (favSave 1 101 { rows := [], favoriteCount := 0 })).rows.length = 0 := by
  decide

/-- C8: pagination floors the page at 1, clamps the size to the maximum,
computes offset (page - 1) * size, totalPages is the ceiling of
totalCount / size (characterized by the two ceiling inequalities),
hasNextPage holds exactly when page is below totalPages; and over 25
rows with limit 10, page 1 returns 10 rows with totalPages 3 while page
4 returns 0 rows with hasNextPage false. -/
theorem pagination_spec (page limit maxPS : Int) (totalCount l : Nat)
    (h : 0 < l) :
    1 ≤ pageNum page ∧
    limitNum limit maxPS ≤ maxPS ∧
    skipCount page limit maxPS = (pageNum page - 1) * limitNum limit maxPS ∧
    totalCount ≤ totalPages totalCount l * l ∧
    totalPages totalCount l * l < totalCount + l ∧
    (hasNextPage page totalCount l = true ↔
      pageNum page < (totalPages totalCount l : Int)) ∧
    (pagedRows (List.range 25) 1 10 100).length = 10 ∧
    totalPages 25 10 = 3 ∧
    pagedRows (List.range 25) 4 10 100 = [] ∧
    hasNextPage 4 25 10 = false := by
  have hceil : totalCount ≤ totalPages totalCount l * l ∧
      totalPages totalCount l * l < totalCount + l := by
    unfold totalPages
    have hdm := Nat.div_add_mod (totalCount + l - 1) l
    have hlt : (totalCount + l - 1) % l < l := Nat.mod_lt _ h
    rw [Nat.mul_comm] at hdm
    generalize hg : (totalCount + l - 1) / l = q at hdm ⊢
    generalize hr : (totalCount + l - 1) % l = r at hdm hlt
    generalize hm : q * l = m at hdm ⊢
    omega
  refine ⟨le_max_left 1 page, min_le_right _ _, rfl, hceil.1, hceil.2, ?_,
    by decide, by decide, by decide, by decide⟩
  unfold hasNextPage
  exact decide_eq_true_iff

/-- C8 witness: the pagination theorem instantiated at page 1, limit 10,
maximum size 100, 25 rows. -/
theorem pagination_spec_witness :
    0 < 10 ∧
    (1 ≤ pageNum 1 ∧
     limitNum 10 100 ≤ 100 ∧
     skipCount 1 10 100 = (pageNum 1 - 1) * limitNum 10 100 ∧
     25 ≤ totalPages 25 10 * 10 ∧
     totalPages 25 10 * 10 < 25 + 10 ∧
     (hasNextPage 1 25 10 = true ↔ pageNum 1 < (totalPages 25 10 : Int)) ∧
     (pagedRows (List.range 25) 1 10 100).length = 10 ∧
     totalPages 25 10 = 3 ∧
     pagedRows (List.range 25) 4 10 100 = [] ∧
     hasNextPage 4 25 10 = false) :=
  ⟨by decide, pagination_spec 1 10 100 25 10 (by decide)⟩

/-- C9, counterexample: an unrecognized sort field is not replaced by the
default createdAt descending sort; the builder sorts by the unrecognized
field name itself. -/
theorem unrecognized_sortBy_passthrough_counterexample :
    buildSortOptions false "banana" "desc" = [("banana", SortVal.desc)] ∧
    buildSortOptions false "banana" "desc" ≠ [("createdAt", SortVal.desc)] := by
  decide

/-- C9, amended: the direction applied per field is binary (asc maps to
ascending, every other order value to descending); the createdAt
descending default applies only when the sortBy parameter is absent; a
supplied but unrecognized sortBy is passed through as the sort key with
the requested direction, and no textScore entry appears without a
search term. -/
theorem sort_builder_amended (sortBy sortOrder : String)
    (h1 : sortBy ≠ "price") (h2 : sortBy ≠ "rating") (h3 : sortBy ≠ "area") :
    (sortDir sortOrder = SortVal.asc ∨ sortDir sortOrder = SortVal.desc) ∧
    buildSortOptions false (effectiveSortBy none) sortOrder =
      [("createdAt", sortDir sortOrder)] ∧
    buildSortOptions false sortBy sortOrder = [(sortBy, sortDir sortOrder)] ∧
    ∀ e ∈ buildSortOptions false sortBy sortOrder, e.snd ≠ SortVal.textScore := by
  have hpass : buildSortOptions false sortBy sortOrder = [(sortBy, sortDir sortOrder)] := by
    unfold buildSortOptions
    rw [if_neg (by decide), if_neg h1, if_neg h2, if_neg h3]
    simp
  refine ⟨?_, ?_, hpass, ?_⟩
  · unfold sortDir
    split
    · exact Or.inl rfl
    · exact Or.inr rfl
  · show buildSortOptions false "createdAt" sortOrder = [("createdAt", sortDir sortOrder)]
    unfold buildSortOptions
    generalize sortDir sortOrder = d
    cases d <;> decide
  · intro e he
    rw [hpass] at he
    simp only [List.mem_singleton] at he
    subst he
    unfold sortDir
    split <;> simp

/-- C9 witness: the amended sort theorem instantiated at the unrecognized
field banana with descending order. -/
theorem sort_builder_amended_witness :
    ("banana" ≠ "price" ∧ "banana" ≠ "rating" ∧ "banana" ≠ "area") ∧
    ((sortDir "desc" = SortVal.asc ∨ sortDir "desc" = SortVal.desc) ∧
     buildSortOptions false (effectiveSortBy none) "desc" =
       [("createdAt", sortDir "desc")] ∧
     buildSortOptions false "banana" "desc" = [("banana", sortDir "desc")] ∧
     ∀ e ∈ buildSortOptions false "banana" "desc", e.snd ≠ SortVal.textScore) :=
  ⟨⟨by decide, by decide, by decide⟩,
   sort_builder_amended "banana" "desc" (by decide) (by decide) (by decide)⟩

/-- C2: for a valid pair (the property exists and is active) with no
stored Favorite yet, the first creation persists exactly one row and the
second attempt reports the distinguishable ALREADY_FAVORITED conflict,
creating no new row: exactly one row remains for the pair. -/
theorem favorite_duplicate_conflict (props : List PropRow) (favs : List FavRow)
    (u p : Nat)
    (hprop : props.find? (fun q => q.id == p) = some { id := p, isActive := true })
    (hnone : favs.find? (fun r => r.userId == u && r.propertyId == p) = none) :
    (addToFavorites props favs u p).fst = .created ∧
    favCount (addToFavorites props favs u p).snd u p = 1 ∧
    (addToFavorites props (addToFavorites props favs u p).snd u p).fst =
      .alreadyFavorited ∧
    (addToFavorites props (addToFavorites props favs u p).snd u p).snd =
      (addToFavorites props favs u p).snd := by
  have hrow : (fun r : FavRow => r.userId == u && r.propertyId == p)
      { userId := u, propertyId := p } = true := by simp
  have hstep1 : addToFavorites props favs u p =
      (.created, favs ++ [{ userId := u, propertyId := p }]) := by
    unfold addToFavorites
    rw [hprop, hnone]
    rfl
  have hfilter0 : favs.filter (fun r => r.userId == u && r.propertyId == p) = [] := by
    rw [List.filter_eq_nil_iff]
    intro a ha
    exact List.find?_eq_none.mp hnone a ha
  have hfind2 : (favs ++ [({ userId := u, propertyId := p } : FavRow)]).find?
      (fun r => r.userId == u && r.propertyId == p) =
      some { userId := u, propertyId := p } := by
    rw [find?_append_none _ _ _ hnone]
    simp [List.find?_cons, hrow]
  have hstep2 : addToFavorites props (favs ++ [{ userId := u, propertyId := p }]) u p =
      (.alreadyFavorited, favs ++ [{ userId := u, propertyId := p }]) := by
    unfold addToFavorites
    rw [hprop, hfind2]
    rfl
  refine ⟨by rw [hstep1], ?_, ?_, ?_⟩
  · rw [hstep1]
    unfold favCount
    rw [List.filter_append, hfilter0]
    simp [hrow]
  · rw [hstep1, hstep2]
  · rw [hstep1, hstep2]

/-- C2 witness: the duplicate-favorite theorem instantiated with an
active property 7, an empty favorite store, user 1. -/
theorem favorite_duplicate_conflict_witness :
    ([({ id := 7, isActive := true } : PropRow)].find? (fun q => q.id == 7) =
       some { id := 7, isActive := true } ∧
     ([] : List FavRow).find? (fun r => r.userId == 1 && r.propertyId == 7) = none) ∧
    ((addToFavorites [{ id := 7, isActive := true }] [] 1 7).fst = .created ∧
     favCount (addToFavorites [{ id := 7, isActive := true }] [] 1 7).snd 1 7 = 1 ∧
     (addToFavorites [{ id := 7, isActive := true }]
        (addToFavorites [{ id := 7, isActive := true }] [] 1 7).snd 1 7).fst =
       .alreadyFavorited ∧
     (addToFavorites [{ id := 7, isActive := true }]
        (addToFavorites [{ id := 7, isActive := true }] [] 1 7).snd 1 7).snd =
       (addToFavorites [{ id := 7, isActive := true }] [] 1 7).snd) :=
  ⟨⟨by decide, by decide⟩,
   favorite_duplicate_conflict [{ id := 7, isActive := true }] [] 1 7
     (by decide) (by decide)⟩

/-- C3: with distinct sender and recipient and no active document for the
triple, the first send succeeds, a second send while the first is active
reports the DUPLICATE_RECOMMENDATION conflict without writing, and after
the recipient dismisses the active document a further send for the same
triple succeeds again. -/
theorem recommendation_duplicate_then_dismiss_resend (store : List RecDoc)
    (s rc p : Nat) (t1 t2 t3 t4 : Int)
    (hneq : s ≠ rc)
    (hnone : store.find? (activeTripleMatch s rc p) = none) :
    (sendRecommendation store s rc p t1).fst = .created ∧
    (sendRecommendation (sendRecommendation store s rc p t1).snd s rc p t2).fst =
      .conflict ∧
    (sendRecommendation (sendRecommendation store s rc p t1).snd s rc p t2).snd =
      (sendRecommendation store s rc p t1).snd ∧
    (sendRecommendation
       (dismissTriple (sendRecommendation store s rc p t1).snd s rc p t3)
       s rc p t4).fst = .created := by
  have hbeq : (s == rc) = false := by
    simpa using hneq
  have hmatchNew : activeTripleMatch s rc p (newRecDoc s rc p t1) = true := by
    simp [activeTripleMatch, newRecDoc]
  have hstep1 : sendRecommendation store s rc p t1 =
      (.created, store ++ [newRecDoc s rc p t1]) := by
    unfold sendRecommendation
    rw [hbeq, hnone]
    simp
  have hfind2 : (store ++ [newRecDoc s rc p t1]).find?
      (activeTripleMatch s rc p) = some (newRecDoc s rc p t1) := by
    rw [find?_append_none _ _ _ hnone]
    simp [List.find?_cons, hmatchNew]
  have hdismiss : ∀ (l : List RecDoc) (now : Int),
      (dismissTriple l s rc p now).find? (activeTripleMatch s rc p) = none := by
    intro l now
    rw [List.find?_eq_none]
    intro x hx
    unfold dismissTriple at hx
    rw [List.mem_map] at hx
    obtain ⟨r, hr, hfx⟩ := hx
    by_cases hm : activeTripleMatch s rc p r = true
    · rw [if_pos hm] at hfx
      rw [← hfx]
      simp [activeTripleMatch, markAsDismissed]
    · rw [if_neg hm] at hfx
      rw [← hfx]
      simpa using hm
  have hstep2 : sendRecommendation (store ++ [newRecDoc s rc p t1]) s rc p t2 =
      (.conflict, store ++ [newRecDoc s rc p t1]) := by
    unfold sendRecommendation
    rw [hbeq, hfind2]
    simp
  have hstep3 : (sendRecommendation
      (dismissTriple (store ++ [newRecDoc s rc p t1]) s rc p t3) s rc p t4).fst =
      .created := by
    unfold sendRecommendation
    rw [hbeq, hdismiss]
    simp
  refine ⟨by rw [hstep1], ?_, ?_, ?_⟩
  · rw [hstep1, hstep2]
  · rw [hstep1, hstep2]
  · rw [hstep1]
    exact hstep3

/-- C3 witness: the duplicate-recommendation theorem instantiated with an
empty store, sender 1, recipient 2, property 3. -/
theorem recommendation_duplicate_then_dismiss_resend_witness :
    ((1 : Nat) ≠ 2 ∧
     ([] : List RecDoc).find? (activeTripleMatch 1 2 3) = none) ∧
    ((sendRecommendation [] 1 2 3 0).fst = .created ∧
     (sendRecommendation (sendRecommendation [] 1 2 3 0).snd 1 2 3 1).fst =
       .conflict ∧
     (sendRecommendation (sendRecommendation [] 1 2 3 0).snd 1 2 3 1).snd =
       (sendRecommendation [] 1 2 3 0).snd ∧
     (sendRecommendation
        (dismissTriple (sendRecommendation [] 1 2 3 0).snd 1 2 3 2) 1 2 3 3).fst =
       .created) :=
  ⟨⟨by decide, by decide⟩,
   recommendation_duplicate_then_dismiss_resend [] 1 2 3 0 1 2 3
     (by decide) (by decide)⟩

/-- C5: through the status-update endpoint the status only moves forward
along the progression (its rank never decreases), reachable-state
well-formedness is preserved, a dismissed document is reported 404 and
left completely untouched (so marking a dismissed recommendation as
interested is rejected), and a dismissal of an active document sets the
absorbing dismissed status and flips isActive off. -/
theorem recommendation_status_forward_progression (now : Int)
    (req : StatusUpdateRequest) (r : RecDoc) (h : RecWF r) :
    statusRank r.status ≤
      statusRank (updateRecommendationStatus now req r).snd.status ∧
    RecWF (updateRecommendationStatus now req r).snd ∧
    (r.status = .dismissed → updateRecommendationStatus now req r = (404, r)) ∧
    (r.isActive = true → req = .dismissed →
      (updateRecommendationStatus now req r).snd.status = .dismissed ∧
      (updateRecommendationStatus now req r).snd.isActive = false) := by
  obtain ⟨hv, hd⟩ := h
  by_cases ha : r.isActive = true
  case neg =>
    unfold updateRecommendationStatus
    rw [if_neg ha]
    refine ⟨le_rfl, ?_, fun _ => rfl, fun hact _ => absurd hact ha⟩
    exact And.intro hv hd
  case pos =>
    have hnd : r.status ≠ .dismissed := by
      intro hds
      rw [hd hds] at ha
      exact absurd ha (by decide)
    unfold updateRecommendationStatus
    rw [if_pos ha]
    refine ⟨?_, ?_, fun hds => absurd hds hnd, fun _ hreq => ?_⟩
    · cases req with
      | viewed =>
        by_cases hvn : r.interactions.viewedAt = none
        · have hle : statusRank r.status ≤ 1 := by
            cases hs : r.status <;> simp_all [statusRank]
          simpa [applyStatusUpdate, markAsViewed, hvn, statusRank] using hle
        · simp [applyStatusUpdate, markAsViewed, hvn]
      | interested =>
        have hle : statusRank r.status ≤ 2 := by
          cases hs : r.status <;> simp_all [statusRank]
        simpa [applyStatusUpdate, markAsInterested, statusRank] using hle
      | notInterested =>
        have hle : statusRank r.status ≤ 2 := by
          cases hs : r.status <;> simp_all [statusRank]
        simpa [applyStatusUpdate, markAsNotInterested, statusRank] using hle
      | contacted =>
        have hle : statusRank r.status ≤ 2 := by
          cases hs : r.status <;> simp_all [statusRank]
        simpa [applyStatusUpdate, markAsContacted, statusRank] using hle
      | dismissed =>
        have hle : statusRank r.status ≤ 3 := by
          cases hs : r.status <;> simp [statusRank]
        simpa [applyStatusUpdate, markAsDismissed, statusRank] using hle
    · cases req with
      | viewed =>
        by_cases hvn : r.interactions.viewedAt = none
        · constructor
          · intro h2
            simp [applyStatusUpdate, markAsViewed, hvn, statusRank] at h2
          · intro h2
            simp [applyStatusUpdate, markAsViewed, hvn] at h2
        · have hid : applyStatusUpdate now .viewed r = r := by
            simp [applyStatusUpdate, markAsViewed, hvn]
          rw [hid]
          exact And.intro hv hd
      | interested =>
        constructor
        · intro _
          by_cases hvn : r.interactions.viewedAt = none <;>
            simp [applyStatusUpdate, markAsInterested, stampViewedIfUnset, hvn]
        · intro h2
          simp [applyStatusUpdate, markAsInterested] at h2
      | notInterested =>
        constructor
        · intro _
          by_cases hvn : r.interactions.viewedAt = none <;>
            simp [applyStatusUpdate, markAsNotInterested, stampViewedIfUnset, hvn]
        · intro h2
          simp [applyStatusUpdate, markAsNotInterested] at h2
      | contacted =>
        constructor
        · intro _
          by_cases hvn : r.interactions.viewedAt = none <;>
            simp [applyStatusUpdate, markAsContacted, stampViewedIfUnset, hvn]
        · intro h2
          simp [applyStatusUpdate, markAsContacted] at h2
      | dismissed =>
        constructor
        · intro h2
          simp [applyStatusUpdate, markAsDismissed, statusRank] at h2
        · intro _
          simp [applyStatusUpdate, markAsDismissed]
    · subst hreq
      constructor <;> simp [applyStatusUpdate, markAsDismissed]

/-- C5 witness: the forward-progression theorem instantiated at a fresh
pending recommendation receiving an interested update. -/
theorem recommendation_status_forward_progression_witness :
    RecWF (newRecDoc 1 2 3 0) ∧
    (statusRank (newRecDoc 1 2 3 0).status ≤
       statusRank (updateRecommendationStatus 5 .interested (newRecDoc 1 2 3 0)).snd.status ∧
     RecWF (updateRecommendationStatus 5 .interested (newRecDoc 1 2 3 0)).snd ∧
     ((newRecDoc 1 2 3 0).status = .dismissed →
       updateRecommendationStatus 5 .interested (newRecDoc 1 2 3 0) =
         (404, newRecDoc 1 2 3 0)) ∧
     ((newRecDoc 1 2 3 0).isActive = true →
       StatusUpdateRequest.interested = .dismissed →
       (updateRecommendationStatus 5 .interested (newRecDoc 1 2 3 0)).snd.status =
         .dismissed ∧
       (updateRecommendationStatus 5 .interested (newRecDoc 1 2 3 0)).snd.isActive =
         false)) :=
  have hwf : RecWF (newRecDoc 1 2 3 0) := by
    constructor
    · intro hx
      simp [newRecDoc, statusRank] at hx
    · intro hx
      simp [newRecDoc] at hx
  ⟨hwf, recommendation_status_forward_progression 5 .interested (newRecDoc 1 2 3 0) hwf⟩

/-- C6, counterexample: the timestamps are not stamped exactly once; a
following not-interested transition overwrites the respondedAt stamped
by an earlier interested transition, and a repeated contacted transition
overwrites contactedAt. -/
theorem respondedAt_overwritten_counterexample :
    (markAsInterested 1 (newRecDoc 1 2 3 0)).interactions.respondedAt = some 1 ∧
    (markAsNotInterested 2
       (markAsInterested 1 (newRecDoc 1 2 3 0))).interactions.respondedAt = some 2 ∧
    (markAsContacted 1 (newRecDoc 1 2 3 0)).interactions.contactedAt = some 1 ∧
    (markAsContacted 2
       (markAsContacted 1 (newRecDoc 1 2 3 0))).interactions.contactedAt = some 2 := by
  decide

/-- C6, amended: markAsViewed is idempotent and viewedAt, once stamped,
is never overwritten by any status transition; the exactly-once stamping
holds for viewedAt, while respondedAt and contactedAt are re-stamped by
each repeated or subsequent responding or contacting transition. -/
theorem viewed_idempotent_timestamps_amended (tA now : Int)
    (req : StatusUpdateRequest) (r : RecDoc)
    (h : r.interactions.viewedAt = some tA) :
    (∀ (s : RecDoc) (tC tD : Int),
       markAsViewed tD (markAsViewed tC s) = markAsViewed tC s) ∧
    (applyStatusUpdate now req r).interactions.viewedAt = some tA := by
  constructor
  · intro s tC tD
    by_cases hvn : s.interactions.viewedAt = none
    · simp [markAsViewed, hvn]
    · simp [markAsViewed, hvn]
  · cases req <;>
      simp [applyStatusUpdate, markAsViewed, markAsInterested, markAsNotInterested,
        markAsContacted, markAsDismissed, stampViewedIfUnset, h]

/-- C6 witness: the amended theorem instantiated at a recommendation
whose viewedAt was stamped at time 1 by an interested transition,
receiving a contacted update at time 5. -/
theorem viewed_idempotent_timestamps_amended_witness :
    (markAsInterested 1 (newRecDoc 1 2 3 0)).interactions.viewedAt = some 1 ∧
    ((∀ (s : RecDoc) (tC tD : Int),
        markAsViewed tD (markAsViewed tC s) = markAsViewed tC s) ∧
     (applyStatusUpdate 5 .contacted
        (markAsInterested 1 (newRecDoc 1 2 3 0))).interactions.viewedAt = some 1) :=
  ⟨by decide,
   viewed_idempotent_timestamps_amended 1 5 .contacted
     (markAsInterested 1 (newRecDoc 1 2 3 0)) (by decide)⟩

/-- C7: a reminder send succeeds exactly when every eligibility condition
of the specification holds (reminders allowed, status still pending, not
expired, fewer than 3 reminders sent, three-day cooldown elapsed or no
reminder ever sent), and an ineligible attempt leaves the document
unchanged and is answered 400 REMINDER_NOT_ALLOWED, not an internal
error. -/
theorem reminder_eligibility_iff (now : Int) (r : RecDoc) :
    ((sendReminder now r).fst = reminderEligibleSpec now r) ∧
    ((sendReminder now r).fst = false →
      (sendReminder now r).snd = r ∧
      sendReminderResponse now r = (400, "REMINDER_NOT_ALLOWED")) := by
  have hiff : canSendReminder now r = reminderEligibleSpec now r := by
    unfold canSendReminder reminderEligibleSpec
    rcases hsent : r.interactions.reminderSentAt with _ | t <;>
      rcases hA : r.allowReminders <;>
      rcases hS : r.status <;>
      rcases hE : recIsExpired now r <;>
      simp_all
    all_goals
      simp only [← decide_not, ← Bool.decide_and, decide_eq_decide]
      omega
  have hfst : (sendReminder now r).fst = canSendReminder now r := by
    cases hb : canSendReminder now r <;> simp [sendReminder, hb]
  refine ⟨hfst.trans hiff, fun hfalse => ?_⟩
  have hc : canSendReminder now r = false := by
    rw [← hfst]
    exact hfalse
  constructor
  · simp [sendReminder, hc]
  · simp [sendReminderResponse, sendReminder, hc]

/-- C7 witness: the eligibility theorem instantiated at a dismissed
recommendation (status no longer pending), whose reminder attempt is
refused with the document unchanged. -/
theorem reminder_eligibility_iff_witness :
    ((sendReminder 5 (markAsDismissed 1 (newRecDoc 1 2 3 0))).fst =
       reminderEligibleSpec 5 (markAsDismissed 1 (newRecDoc 1 2 3 0))) ∧
    ((sendReminder 5 (markAsDismissed 1 (newRecDoc 1 2 3 0))).snd =
       markAsDismissed 1 (newRecDoc 1 2 3 0) ∧
     sendReminderResponse 5 (markAsDismissed 1 (newRecDoc 1 2 3 0)) =
       (400, "REMINDER_NOT_ALLOWED")) :=
  ⟨(reminder_eligibility_iff 5 (markAsDismissed 1 (newRecDoc 1 2 3 0))).1,
   (reminder_eligibility_iff 5 (markAsDismissed 1 (newRecDoc 1 2 3 0))).2 (by decide)⟩

/-- C10: the JSON serialization of a user never contains the password,
resetPasswordToken, resetPasswordExpires, emailVerificationToken or
emailVerificationExpires keys, and two users that differ only in those
sensitive fields serialize identically. -/
theorem userToJSON_hides_sensitive_fields (u v : UserDoc)
    (h : scrubSensitive u = scrubSensitive v) :
    (∀ k ∈ sensitiveKeys, (userToJSON u).lookup k = none) ∧
    userToJSON u = userToJSON v := by
  constructor
  · intro k hk
    simp only [sensitiveKeys, List.mem_cons, List.not_mem_nil, or_false] at hk
    rcases hk with rfl | rfl | rfl | rfl | rfl <;> rfl
  · calc userToJSON u = userToJSON (scrubSensitive u) := rfl
      _ = userToJSON (scrubSensitive v) := by rw [h]
      _ = userToJSON v := rfl

/-- C10 witness: the serialization theorem instantiated at two sample
users differing only in password, reset token and verification token. -/
theorem userToJSON_hides_sensitive_fields_witness :
    scrubSensitive sampleUserA = scrubSensitive sampleUserB ∧
    ((∀ k ∈ sensitiveKeys, (userToJSON sampleUserA).lookup k = none) ∧
     userToJSON sampleUserA = userToJSON sampleUserB) :=
  ⟨by decide,
   userToJSON_hides_sensitive_fields sampleUserA sampleUserB (by decide)⟩

end PropListing
